import Mathlib

/-!
Verification development for the lexitrade margin-trade accounting core.

The repository ships the behavioural test suite of its trade/order accounting
engine (src/tests/test_persistence_margin.py) while the engine itself
(the freqtrade persistence module with the Trade class) is not part of the
source tree.  The definitions below therefore embed the engine as follows:
every behaviour that the test file pins down (its active assertions and the
worked computations in its docstrings) is translated from that file, and the
remaining operations are modelled from the specification, as marked in the
doc comments.  All monetary arithmetic is embedded in ℚ; the exchange-side
timestamps are passed explicitly (elapsed hours for interest, an opaque label
for wall-clock time).
-/

namespace LexiTrade

/-- Executable floor on ℚ: Euclidean division of numerator by (positive)
denominator. -/
def qfloor (q : ℚ) : ℤ := q.num / q.den

/-- Executable ceiling on ℚ. -/
def qceil (q : ℚ) : ℤ := -(qfloor (-q))

theorem qfloor_eq_floor (q : ℚ) : qfloor q = ⌊q⌋ := Rat.floor_def.symm

theorem qceil_eq_ceil (q : ℚ) : qceil q = ⌈q⌉ := by
  rw [qceil, qfloor_eq_floor, Int.floor_neg, neg_neg]

theorem qceil_eval (q : ℚ) (n : ℤ) (h1 : (n : ℚ) - 1 < q) (h2 : q ≤ n) : qceil q = n := by
  rw [qceil_eq_ceil]
  exact Int.ceil_eq_iff.mpr ⟨by exact_mod_cast h1, by exact_mod_cast h2⟩

/-- Round half-up to 8 decimal places.  The test suite pins every stored
profit result to an 8-decimal value (e.g. `close_profit == 0.06198845` for an
exact ratio of 0.06198845388946…), so the engine rounds profit results to
8 places before storing them. -/
def round8 (q : ℚ) : ℚ := (qfloor (q * 100000000 + 1/2) : ℚ) / 100000000

theorem round8_eval (q : ℚ) (n : ℤ) (h1 : (n : ℚ) ≤ q * 100000000 + 1/2)
    (h2 : q * 100000000 + 1/2 < n + 1) : round8 q = (n : ℚ) / 100000000 := by
  rw [round8, qfloor_eq_floor, Int.floor_eq_iff.mpr ⟨h1, h2⟩]

/-- Uppercase a word, character by character (the reconciler's log prefix
uppercases the order type and side, e.g. `market`/`sell` to `MARKET_SELL`). -/
def strUpper (s : String) : String := String.mk (s.data.map Char.toUpper)

/-- Fixed-point rendering with exactly 8 decimal places, matching how the
trade repr prints `amount` and `open_rate` in the fulfilment log line
(e.g. `90.99181073`, `0.00001173`). -/
def fmt8 (q : ℚ) : String :=
  let n := (q * 100000000).num
  let i := n / 100000000
  let f := n % 100000000
  let fs := toString f
  toString i ++ "." ++ String.mk (List.replicate (8 - fs.length) '0') ++ fs

/-- Interest charged on a margin trade, translated from the worked
computations in the docstrings of src/tests/test_persistence_margin.py
(the engine itself is not under src/):
binance bills the daily rate pro-rata per started hour
(10 minutes "rounds up to 1/24 time-period of 1 day", 5 hours give 5/24),
kraken bills one full 4-hour period immediately and pro-rata afterwards
(10 minutes "rounds up to 1 time-period of 4hrs", 5 hours give 5/4). -/
def calculate_interest (exchange : String) (borrowed rate hours : ℚ) : ℚ :=
  if exchange = "binance" then borrowed * rate * (qceil hours : ℚ) / 24
  else if exchange = "kraken" then borrowed * rate * max 1 (hours / 4)
  else 0

/-- Modelled from the spec: §4.2 ValuationEngine open-side value.
Short: proceeds of selling the borrowed asset, reduced by the fee;
long: cost of acquiring the asset, increased by the fee. -/
def open_value (amount rate fee : ℚ) (short : Bool) : ℚ :=
  if short then amount * rate * (1 - fee) else amount * rate * (1 + fee)

/-- Modelled from the spec: §4.2 ValuationEngine close-side value, over
`amount_closed = amount + interest`.  Short: cost of buying back and
repaying, increased by the fee; long: sale proceeds, reduced by the fee. -/
def close_value (amount_closed rate fee : ℚ) (short : Bool) : ℚ :=
  if short then amount_closed * rate * (1 + fee) else amount_closed * rate * (1 - fee)

/-- Modelled from the spec: §6 rate-lookup collaborator
`(exchange, pair) -> interest_rate`.  Both venues exercised by the test
suite use 0.0005 per period. -/
def interestRateFor (exchange : String) : ℚ :=
  if exchange = "binance" then 0.0005 else 0.0005

/-- One exchange order snapshot (§3 OrderRecord); field set taken from the
spec's required fields and the values the test suite drives through
`update`.  `leverage` defaults to 1, as orders without leverage metadata
are unleveraged. -/
structure OrderRecord where
  order_id : String
  side : String
  order_type : String
  status : String
  price : ℚ
  amount : ℚ
  filled : ℚ
  remaining : ℚ
  leverage : ℚ := 1

/-- One position (§3 Trade).  Tri-state `is_short` (unknown until the first
fill), `borrowed`/`interest_rate` unknown until the first fill, `close_rate`,
`close_profit` and `close_date` unset while open.  `open_date` is an opaque
timestamp label (elapsed time is passed to the operations explicitly). -/
structure Trade where
  id : Option ℕ := none
  pair : String
  stake_amount : ℚ
  open_rate : ℚ
  amount : ℚ
  is_open : Bool := true
  open_date : String := ""
  fee_open : ℚ
  fee_close : ℚ
  exchange : String
  leverage : ℚ := 1
  is_short : Option Bool := none
  borrowed : Option ℚ := none
  interest_rate : Option ℚ := none
  open_order_id : Option String := none
  close_rate : Option ℚ := none
  close_profit : Option ℚ := none
  close_date : Option String := none

/-- Open-side trade value (source name `_calc_open_trade_value`): the
ValuationEngine open value over the trade's stored amount; `0` for a trade
with no recorded open fill (spec §4.2 edge case). -/
def Trade.calc_open_trade_value (t : Trade) : ℚ :=
  match t.is_short with
  | none => 0
  | some short => open_value t.amount t.open_rate t.fee_open short

/-- Close-side trade value: `0` when the trade has no recorded open fill or
no closing data yet (pinned by test_calc_close_trade_price_exception, which
expects `0.0` rather than an exception); otherwise the ValuationEngine close
value over `amount + interest`. -/
def Trade.calc_close_trade_value (t : Trade) (hours : ℚ) : ℚ :=
  match t.is_short, t.close_rate with
  | some short, some rate =>
      close_value
        (t.amount + calculate_interest t.exchange (t.borrowed.getD 0)
          (t.interest_rate.getD 0) hours)
        rate t.fee_close short
  | _, _ => 0

/-- Absolute profit, rounded to 8 decimals (test: `calc_profit()` is compared
against 8-decimal results such as 0.00006206). -/
def Trade.calc_profit (t : Trade) (hours : ℚ) : ℚ :=
  match t.is_short with
  | none => 0
  | some short =>
      let ov := t.calc_open_trade_value
      let cv := t.calc_close_trade_value hours
      round8 (if short then ov - cv else cv - ov)

/-- Relative profit, rounded to 8 decimals (test: `calc_profit_ratio()` is
compared against 8-decimal results such as 0.06189996). -/
def Trade.calc_profit_ratio (t : Trade) (hours : ℚ) : ℚ :=
  match t.is_short with
  | none => 0
  | some short =>
      let ov := t.calc_open_trade_value
      let cv := t.calc_close_trade_value hours
      round8 (if short then ov / cv - 1 else cv / ov - 1)

/-- Identifier as printed in the trade repr. -/
def idStr : Option ℕ → String
  | some n => toString n
  | none => "None"

/-- The fulfilment log line emitted when a closed order is reconciled; format
pinned by the active `log_has_re` assertions of test_update_with_binance. -/
def fulfillMessage (o : OrderRecord) (t : Trade) : String :=
  strUpper o.order_type ++ "_" ++ strUpper o.side ++
    " has been fulfilled for Trade(id=" ++ idStr t.id ++
    ", pair=" ++ t.pair ++ ", amount=" ++ fmt8 t.amount ++
    ", open_rate=" ++ fmt8 t.open_rate ++ ", open_since=" ++ t.open_date ++ ")."

/-- Modelled from the spec (§4.3 OrderFillReconciler, not under src/) and the
assertions of the test suite.  A non-closed order changes nothing and logs
nothing.  The first closed fill is the opening fill: it derives `is_short`
from the side (selling-to-open means short), sets `open_rate` from the fill
price, scales the filled amount by the order's leverage, borrows the whole
position for a short (only the part beyond the owner's stake for a long),
looks up the interest rate, clears the pending order and logs.  A later
closed fill is the closing fill: it sets `close_rate`, stores the profit
ratio rounded to 8 decimals in `close_profit` (the values the tests assert in
`close_profit` are ratios), closes the trade and logs.  `hours` is the
elapsed holding time, `now` the wall-clock label for `close_date`. -/
def Trade.update (t : Trade) (o : OrderRecord) (hours : ℚ) (now : String) :
    Trade × List String :=
  if o.status ≠ "closed" then (t, [])
  else
    match t.is_short with
    | none =>
        let short := o.side == "sell"
        let amt := o.filled * o.leverage
        let t' : Trade :=
          { t with
            is_short := some short
            open_rate := o.price
            amount := amt
            leverage := o.leverage
            borrowed := some (if short then amt else (o.leverage - 1) * o.filled)
            interest_rate := some (interestRateFor t.exchange)
            open_order_id := none }
        (t', [fulfillMessage o t'])
    | some short =>
        let t1 : Trade := { t with close_rate := some o.price, open_order_id := none }
        let ov := t1.calc_open_trade_value
        let cv := t1.calc_close_trade_value hours
        let r := round8 (if short then ov / cv - 1 else cv / ov - 1)
        let t' : Trade :=
          { t1 with
            close_profit := some r
            is_open := false
            close_date := some now }
        (t', [fulfillMessage o t'])

/-- Modelled from the spec (§4.4, not under src/) and test_trade_close:
manual close values the position over `amount * leverage` (the test's
docstring takes amount `5 * 3 = 15` and borrowed `15` for a trade stored
with amount 5 at leverage 3), stores the rounded profit ratio in
`close_profit`, closes the trade, and writes `close_date` only if it is not
already set. -/
def Trade.close (t : Trade) (rate hours : ℚ) (now : String) : Trade :=
  let short := t.is_short.getD false
  let amt := t.amount * t.leverage
  let borrowed := if short then amt else (t.leverage - 1) * t.amount
  let interest := calculate_interest t.exchange borrowed (t.interest_rate.getD 0) hours
  let ov := open_value amt t.open_rate t.fee_open short
  let cv := close_value (amt + interest) rate t.fee_close short
  let r := round8 (if short then ov / cv - 1 else cv / ov - 1)
  { t with
    close_rate := some rate
    close_profit := some r
    is_open := false
    open_order_id := none
    close_date := match t.close_date with | some d => some d | none => some now }

/-! Fixtures: the orders and trades driven through the engine by
src/tests/test_persistence_margin.py (order field values reconstructed from
the test's assertions and docstrings; the conftest fixture file is not in
the source tree). -/

/-- The 0.25% fee used throughout the test suite. -/
def fee_val : ℚ := 0.0025

def limit_short_order : OrderRecord :=
  { order_id := "mocked_limit_short", side := "sell", order_type := "limit",
    status := "closed", price := 0.00001173, amount := 90.99181073,
    filled := 90.99181073, remaining := 0 }

def limit_exit_short_order : OrderRecord :=
  { order_id := "mocked_limit_exit_short", side := "buy", order_type := "limit",
    status := "closed", price := 0.00001099, amount := 90.99181073,
    filled := 90.99181073, remaining := 0 }

def market_short_order : OrderRecord :=
  { order_id := "mocked_market_short", side := "sell", order_type := "market",
    status := "closed", price := 0.00004173, amount := 91.99181073,
    filled := 91.99181073, remaining := 0, leverage := 3 }

def market_exit_short_order : OrderRecord :=
  { order_id := "mocked_market_exit_short", side := "buy", order_type := "market",
    status := "closed", price := 0.00004099, amount := 91.99181073,
    filled := 91.99181073, remaining := 0, leverage := 3 }

/-- test_update_with_binance: 10-minute short limit trade on binance. -/
def tradeA0 : Trade :=
  { id := some 2, pair := "ETH/BTC", stake_amount := 0.001, open_rate := 0.01,
    amount := 5, is_open := true, open_date := "ten_minutes_ago",
    fee_open := fee_val, fee_close := fee_val, exchange := "binance" }

def tradeA1 : Trade := (tradeA0.update limit_short_order (1/6) "n1").1

def tradeA2 : Trade := (tradeA1.update limit_exit_short_order (1/6) "n2").1

/-- test_update_market_order: 10-minute short market trade on kraken, 3x. -/
def tradeB0 : Trade :=
  { id := some 1, pair := "ETH/BTC", stake_amount := 0.001, amount := 5,
    open_rate := 0.01, is_open := true, fee_open := fee_val,
    fee_close := fee_val, open_date := "ten_minutes_ago",
    exchange := "kraken", open_order_id := some "something" }

def tradeB1 : Trade := (tradeB0.update market_short_order (1/6) "n1").1

def tradeB2 : Trade :=
  ({ tradeB1 with is_open := true, open_order_id := some "something" }.update
    market_exit_short_order (1/6) "n2").1

/-- test_calc_open_close_trade_price: 5-hour short trade on binance. -/
def tradeC0 : Trade :=
  { pair := "ETH/BTC", stake_amount := 0.001, open_rate := 0.01, amount := 5,
    open_date := "five_hours_ago", fee_open := fee_val, fee_close := fee_val,
    exchange := "binance", open_order_id := some "something" }

def tradeC1 : Trade := (tradeC0.update limit_short_order 5 "n1").1

def tradeC2 : Trade := (tradeC1.update limit_exit_short_order 5 "n2").1

/-- test_trade_close: 5-hour short on kraken at 3x, closed manually. -/
def tradeD0 : Trade :=
  { pair := "ETH/BTC", stake_amount := 0.001, open_rate := 0.02, amount := 5,
    is_open := true, fee_open := fee_val, fee_close := fee_val,
    open_date := "five_hours_ago", exchange := "kraken",
    is_short := some true, leverage := 3, interest_rate := some 0.0005 }

/-- test_calc_close_trade_price_exception: opened but never closed. -/
def tradeE0 : Trade :=
  { pair := "ETH/BTC", stake_amount := 0.001, open_rate := 0.1, amount := 5,
    fee_open := fee_val, fee_close := fee_val, exchange := "binance",
    open_order_id := some "something" }

def tradeE1 : Trade := (tradeE0.update limit_short_order 0 "n1").1

/-- test_update_open_order: trade that only ever sees a non-closed order. -/
def tradeU : Trade :=
  { pair := "ETH/BTC", stake_amount := 1, open_rate := 0.01, amount := 5,
    fee_open := 0.1, fee_close := 0.1, exchange := "binance" }

def limit_short_order_open : OrderRecord := { limit_short_order with status := "open" }

/-! Evaluation lemmas for the concrete scenarios. -/

theorem tradeA1_eq : tradeA1 =
    { tradeA0 with
      is_short := some true, open_rate := 0.00001173,
      amount := 90.99181073, leverage := 1, borrowed := some 90.99181073,
      interest_rate := some 0.0005, open_order_id := none } := by
  simp only [tradeA1, Trade.update, limit_short_order, tradeA0, interestRateFor, fee_val]
  norm_num [Trade.mk.injEq]

theorem tradeA2_eq : tradeA2 =
    { tradeA0 with
      is_short := some true, open_rate := 0.00001173,
      amount := 90.99181073, leverage := 1, borrowed := some 90.99181073,
      interest_rate := some 0.0005, open_order_id := none,
      close_rate := some 0.00001099, close_profit := some 0.06198845,
      is_open := false, close_date := some "n2" } := by
  rw [tradeA2, tradeA1_eq]
  simp only [Trade.update, limit_exit_short_order, tradeA0, fee_val,
    Trade.calc_open_trade_value, Trade.calc_close_trade_value, open_value,
    close_value, calculate_interest, Option.getD]
  norm_num
  rw [qceil_eval (1/6 : ℚ) 1 (by norm_num) (by norm_num)]
  rw [round8_eval _ 6198845 (by norm_num) (by norm_num)]
  norm_num [Trade.mk.injEq]

theorem tradeA2_open_value : tradeA2.calc_open_trade_value =
    4258662420052971 / 4000000000000000000 := by
  rw [tradeA2_eq]
  simp only [Trade.calc_open_trade_value, open_value, tradeA0, fee_val]
  norm_num

theorem tradeA2_close_value : tradeA2.calc_close_trade_value (1/6) =
    192484009985120986027 / 192000000000000000000000 := by
  rw [tradeA2_eq]
  simp only [Trade.calc_close_trade_value, close_value, calculate_interest,
    Option.getD, tradeA0, fee_val]
  norm_num
  rw [qceil_eval (1/6 : ℚ) 1 (by norm_num) (by norm_num)]
  norm_num

theorem tradeA2_profit : tradeA2.calc_profit (1/6) = 0.00006214 := by
  rw [Trade.calc_profit]
  rw [show tradeA2.is_short = some true from by rw [tradeA2_eq]]
  simp only
  rw [tradeA2_open_value, tradeA2_close_value]
  rw [if_true]
  rw [round8_eval _ 6214 (by norm_num) (by norm_num)]
  norm_num

theorem tradeB1_eq : tradeB1 =
    { tradeB0 with
      is_short := some true, open_rate := 0.00004173,
      amount := 275.97543219, leverage := 3, borrowed := some 275.97543219,
      interest_rate := some 0.0005, open_order_id := none } := by
  simp only [tradeB1, Trade.update, market_short_order, tradeB0, interestRateFor, fee_val]
  norm_num [Trade.mk.injEq]

theorem tradeB2_eq : tradeB2 =
    { tradeB0 with
      is_short := some true, open_rate := 0.00004173,
      amount := 275.97543219, leverage := 3, borrowed := some 275.97543219,
      interest_rate := some 0.0005, open_order_id := none,
      close_rate := some 0.00004099, close_profit := some 0.01246938,
      is_open := false, close_date := some "n2" } := by
  rw [tradeB2, tradeB1_eq]
  simp only [Trade.update, market_exit_short_order, tradeB0, fee_val,
    Trade.calc_open_trade_value, Trade.calc_close_trade_value, open_value,
    close_value, calculate_interest, Option.getD]
  simp only [if_neg (show ("kraken" : String) = "binance" -> False from by decide)]
  norm_num [max_def]
  rw [round8_eval _ 1246938 (by norm_num) (by norm_num)]
  norm_num [Trade.mk.injEq]

theorem tradeC1_eq : tradeC1 =
    { tradeC0 with
      is_short := some true, open_rate := 0.00001173,
      amount := 90.99181073, leverage := 1, borrowed := some 90.99181073,
      interest_rate := some 0.0005, open_order_id := none } := by
  simp only [tradeC1, Trade.update, limit_short_order, tradeC0, interestRateFor, fee_val]
  norm_num [Trade.mk.injEq]

theorem tradeC2_eq : tradeC2 =
    { tradeC0 with
      is_short := some true, open_rate := 0.00001173,
      amount := 90.99181073, leverage := 1, borrowed := some 90.99181073,
      interest_rate := some 0.0005, open_order_id := none,
      close_rate := some 0.00001099, close_profit := some 0.06189996,
      is_open := false, close_date := some "n2" } := by
  rw [tradeC2, tradeC1_eq]
  simp only [Trade.update, limit_exit_short_order, tradeC0, fee_val,
    Trade.calc_open_trade_value, Trade.calc_close_trade_value, open_value,
    close_value, calculate_interest, Option.getD]
  norm_num
  rw [qceil_eval (5 : ℚ) 5 (by norm_num) (by norm_num)]
  rw [round8_eval _ 6189996 (by norm_num) (by norm_num)]
  norm_num [Trade.mk.injEq]

theorem tradeC2_close_value : tradeC2.calc_close_trade_value 5 =
    38500009997023949227 / 38400000000000000000000 := by
  rw [tradeC2_eq]
  simp only [Trade.calc_close_trade_value, close_value, calculate_interest,
    Option.getD, tradeC0, fee_val]
  norm_num
  rw [qceil_eval (5 : ℚ) 5 (by norm_num) (by norm_num)]
  norm_num

theorem tradeC2_open_value : tradeC2.calc_open_trade_value =
    4258662420052971 / 4000000000000000000 := by
  rw [tradeC2_eq]
  simp only [Trade.calc_open_trade_value, open_value, tradeC0, fee_val]
  norm_num

theorem tradeC2_profit : tradeC2.calc_profit 5 = 0.00006206 := by
  rw [Trade.calc_profit]
  rw [show tradeC2.is_short = some true from by rw [tradeC2_eq]]
  simp only
  rw [tradeC2_open_value, tradeC2_close_value]
  rw [if_true]
  rw [round8_eval _ 6206 (by norm_num) (by norm_num)]
  norm_num

theorem tradeD_close_eq : tradeD0.close 0.01 5 "nD" =
    { tradeD0 with
      close_rate := some 0.01, close_profit := some 0.98878195,
      is_open := false, open_order_id := none, close_date := some "nD" } := by
  simp only [Trade.close, tradeD0, calculate_interest, open_value, close_value,
    Option.getD, fee_val]
  simp only [if_neg (show ("kraken" : String) = "binance" -> False from by decide)]
  norm_num [max_def]
  rw [round8_eval _ 98878195 (by norm_num) (by norm_num)]
  norm_num [Trade.mk.injEq]

theorem fmt8_9099181073 : fmt8 ((9099181073 : ℚ) / 100000000) = "90.99181073" := by
  rw [fmt8, show ((9099181073 : ℚ) / 100000000) * 100000000 = ((9099181073 : ℤ) : ℚ) from by norm_num]
  decide

theorem fmt8_1173 : fmt8 ((1173 : ℚ) / 100000000) = "0.00001173" := by
  rw [fmt8, show ((1173 : ℚ) / 100000000) * 100000000 = ((1173 : ℤ) : ℚ) from by norm_num]
  decide

theorem fmt8_27597543219 : fmt8 ((27597543219 : ℚ) / 100000000) = "275.97543219" := by
  rw [fmt8, show ((27597543219 : ℚ) / 100000000) * 100000000 = ((27597543219 : ℤ) : ℚ) from by norm_num]
  decide

theorem fmt8_4173 : fmt8 ((4173 : ℚ) / 100000000) = "0.00004173" := by
  rw [fmt8, show ((4173 : ℚ) / 100000000) * 100000000 = ((4173 : ℤ) : ℚ) from by norm_num]
  decide

theorem msgA_eq : (tradeA0.update limit_short_order (1/6) "n1").2 =
    ["LIMIT_SELL has been fulfilled for Trade(id=2, pair=ETH/BTC, amount=90.99181073, open_rate=0.00001173, open_since=ten_minutes_ago)."] := by
  simp only [Trade.update, limit_short_order, tradeA0, fulfillMessage, idStr]
  norm_num
  rw [fmt8_9099181073, fmt8_1173]
  decide

theorem msgB_eq : (tradeB0.update market_short_order (1/6) "n1").2 =
    ["MARKET_SELL has been fulfilled for Trade(id=1, pair=ETH/BTC, amount=275.97543219, open_rate=0.00004173, open_since=ten_minutes_ago)."] := by
  simp only [Trade.update, market_short_order, tradeB0, fulfillMessage, idStr]
  norm_num
  rw [fmt8_27597543219, fmt8_4173]
  decide

/-! Claim theorems. -/

/-- C1 counterexample: the engine's interest accrual is not whole-period
ceiling rounding.  At the claim's cited sources: on kraken (test_trade_close,
borrowed 15 at 0.0005 per 4-hour period, 5-hour hold) the engine charges
15·0.0005·(5/4) = 0.009375 — 5/4 fractional periods — while the claimed
borrowed·rate·⌈5/4⌉ would be 0.015; and on binance
(test_calc_open_close_trade_price, 5-hour hold against the daily rate) the
engine charges 5/24 of the daily rate, not the claimed whole period ⌈5/24⌉ = 1. -/
theorem C1_cex :
    calculate_interest tradeD0.exchange 15 0.0005 5 = 0.009375 ∧
    (15 : ℚ) * 0.0005 * ((⌈(5 : ℚ) / 4⌉ : ℤ) : ℚ) = 0.015 ∧
    (0.009375 : ℚ) ≠ 0.015 ∧
    calculate_interest tradeA0.exchange 90.99181073 0.0005 5 ≠
      90.99181073 * 0.0005 * ((⌈(5 : ℚ) / 24⌉ : ℤ) : ℚ) := by
  refine ⟨?_, ?_, by norm_num, ?_⟩
  · simp only [tradeD0, calculate_interest]
    rw [if_neg (show ("kraken" : String) = "binance" -> False from by decide)]
    norm_num [max_def]
  · have h54 : (⌈(5 : ℚ) / 4⌉ : ℤ) = 2 := by
      rw [← qceil_eq_ceil]
      exact qceil_eval _ 2 (by norm_num) (by norm_num)
    rw [h54]
    norm_num
  · have h524 : (⌈(5 : ℚ) / 24⌉ : ℤ) = 1 := by
      rw [← qceil_eq_ceil]
      exact qceil_eval _ 1 (by norm_num) (by norm_num)
    rw [h524]
    simp only [tradeA0, calculate_interest]
    rw [qceil_eval (5 : ℚ) 5 (by norm_num) (by norm_num)]
    norm_num

/-- C1 (amended): the engine accrues interest pro-rata, as
borrowed · interest_rate · periods with a fractional period count: on kraken
one full 4-hour period is charged as a floor and beyond that
periods = max(1, hours/4) grows fractionally (a 5-hour hold gives 5/4
periods, not 2; a 10-minute hold gives 1); on binance the daily rate is
billed per started hour, periods = ⌈hours⌉/24 of a day (a 5-hour hold gives
5/24 of the daily rate, not 1 whole period; a 10-minute hold gives 1/24),
and zero elapsed duration accrues zero interest. -/
theorem C1_amended_interest :
    (∀ b r hours : ℚ,
      calculate_interest tradeD0.exchange b r hours = b * r * max 1 (hours / 4)) ∧
    (∀ b r hours : ℚ,
      calculate_interest tradeA0.exchange b r hours = b * r * ((⌈hours⌉ : ℤ) : ℚ) / 24) ∧
    (∀ b r : ℚ, calculate_interest tradeA0.exchange b r 0 = 0) ∧
    calculate_interest tradeD0.exchange 15 0.0005 5 = 15 * 0.0005 * (5 / 4) ∧
    calculate_interest tradeD0.exchange 275.97543219 0.0005 (1/6) =
      275.97543219 * 0.0005 * 1 ∧
    calculate_interest tradeA0.exchange 90.99181073 0.0005 5 =
      90.99181073 * 0.0005 * (5 / 24) ∧
    calculate_interest tradeA0.exchange 90.99181073 0.0005 (1/6) =
      90.99181073 * 0.0005 * (1 / 24) := by
  refine ⟨?_, ?_, ?_, ?_, ?_, ?_, ?_⟩
  · intro b r hours
    simp only [tradeD0, calculate_interest]
    rw [if_neg (show ("kraken" : String) = "binance" -> False from by decide)]
    simp
  · intro b r hours
    simp only [tradeA0, calculate_interest]
    rw [qceil_eq_ceil]
    simp
  · intro b r
    simp only [tradeA0, calculate_interest]
    rw [qceil_eval (0 : ℚ) 0 (by norm_num) (by norm_num)]
    norm_num
  · simp only [tradeD0, calculate_interest]
    rw [if_neg (show ("kraken" : String) = "binance" -> False from by decide)]
    norm_num [max_def]
  · simp only [tradeD0, calculate_interest]
    rw [if_neg (show ("kraken" : String) = "binance" -> False from by decide)]
    norm_num [max_def]
  · simp only [tradeA0, calculate_interest]
    rw [qceil_eval (5 : ℚ) 5 (by norm_num) (by norm_num)]
    norm_num
  · simp only [tradeA0, calculate_interest]
    rw [qceil_eval ((1 : ℚ) / 6) 1 (by norm_num) (by norm_num)]
    norm_num

/-- C2: for every short trade with a recorded open fill, the open value is
amount * open_rate * (1 - fee_open), the close value is
(amount + interest) * close_rate * (1 + fee_close), the profit is open minus
close and the profit ratio open/close - 1 (rounded to 8 decimals when
computed); on scenario A the stored result is 0.06198845 and the absolute
profit lies between 0.0000621447196 and 0.0000621447197
(≈ 0.00006214471967). -/
theorem C2_short_valuation :
    (∀ t : Trade, t.is_short = some true →
      t.calc_open_trade_value = t.amount * t.open_rate * (1 - t.fee_open)) ∧
    (∀ (t : Trade) (r hours : ℚ), t.is_short = some true → t.close_rate = some r →
      t.calc_close_trade_value hours =
        (t.amount + calculate_interest t.exchange (t.borrowed.getD 0)
          (t.interest_rate.getD 0) hours) * r * (1 + t.fee_close)) ∧
    (∀ (t : Trade) (hours : ℚ), t.is_short = some true →
      t.calc_profit hours =
        round8 (t.calc_open_trade_value - t.calc_close_trade_value hours) ∧
      t.calc_profit_ratio hours =
        round8 (t.calc_open_trade_value / t.calc_close_trade_value hours - 1)) ∧
    tradeA2.close_profit = some (0.06198845 : ℚ) ∧
    (0.0000621447196 : ℚ) <
      tradeA2.calc_open_trade_value - tradeA2.calc_close_trade_value (1/6) ∧
    tradeA2.calc_open_trade_value - tradeA2.calc_close_trade_value (1/6) <
      (0.0000621447197 : ℚ) := by
  refine ⟨?_, ?_, ?_, ?_, ?_, ?_⟩
  · intro t h
    simp [Trade.calc_open_trade_value, h, open_value]
  · intro t r hours h hr
    simp [Trade.calc_close_trade_value, h, hr, close_value]
  · intro t hours h
    exact ⟨by simp [Trade.calc_profit, h], by simp [Trade.calc_profit_ratio, h]⟩
  · rw [tradeA2_eq]
  · rw [tradeA2_open_value, tradeA2_close_value]
    norm_num
  · rw [tradeA2_open_value, tradeA2_close_value]
    norm_num

theorem C2_short_valuation_witness :
    tradeA2.is_short = some true ∧
    tradeA2.calc_open_trade_value =
      tradeA2.amount * tradeA2.open_rate * (1 - tradeA2.fee_open) :=
  ⟨by simp [tradeA2_eq], C2_short_valuation.1 tradeA2 (by simp [tradeA2_eq])⟩

/-- C3 counterexample: after the closing fill of scenario A the stored
close_profit is the relative profit ratio 0.06198845, while the absolute
profit is 0.00006214: close_profit does not hold the absolute profit, and no
second field holds the other quantity. -/
theorem C3_cex : tradeA2.close_profit = some (0.06198845 : ℚ) ∧
    tradeA2.calc_profit (1/6) = (0.00006214 : ℚ) ∧
    (0.06198845 : ℚ) ≠ (0.00006214 : ℚ) :=
  ⟨by rw [tradeA2_eq], tradeA2_profit, by norm_num⟩

/-- C3 (amended): after a closing fill the trade stores the relative profit:
close_profit equals calc_profit_ratio of the closed trade (the profit ratio
rounded to 8 decimals); the absolute profit is not stored in a second field.
On scenario B the stored value is the ratio 0.01246938. -/
theorem C3_amended_close_profit :
    (∀ (t : Trade) (o : OrderRecord) (hours : ℚ) (now : String) (short : Bool),
      t.is_short = some short → o.status = "closed" →
        (t.update o hours now).1.close_profit =
          some ((t.update o hours now).1.calc_profit_ratio hours)) ∧
    tradeB2.close_profit = some (0.01246938 : ℚ) := by
  constructor
  · intro t o hours now short h hs
    have hcond : ¬(o.status ≠ "closed") := by simp [hs]
    simp only [Trade.update, if_neg hcond, h]
    simp [Trade.calc_profit_ratio, Trade.calc_open_trade_value,
      Trade.calc_close_trade_value]
  · rw [tradeB2_eq]

theorem C3_amended_close_profit_witness :
    tradeA1.is_short = some true ∧ limit_exit_short_order.status = "closed" ∧
    (tradeA1.update limit_exit_short_order (1/6) "n2").1.close_profit =
      some ((tradeA1.update limit_exit_short_order (1/6) "n2").1.calc_profit_ratio (1/6)) :=
  ⟨by simp [tradeA1_eq], rfl,
    C3_amended_close_profit.1 tradeA1 limit_exit_short_order (1/6) "n2" true
      (by simp [tradeA1_eq]) rfl⟩

/-- C4 counterexample: scenario A stores close_profit 0.06198845, but the
exact unrounded profit ratio open/close - 1 is not 0.06198845 (it is
0.06198845388946…): the stored result is a value rounded to 8 decimal
places, not the exact result of the profit formulas. -/
theorem C4_cex : tradeA2.close_profit = some (0.06198845 : ℚ) ∧
    tradeA2.calc_open_trade_value / tradeA2.calc_close_trade_value (1/6) - 1 ≠
      (0.06198845 : ℚ) := by
  refine ⟨by rw [tradeA2_eq], ?_⟩
  rw [tradeA2_open_value, tradeA2_close_value]
  norm_num

/-- C4 (amended): the trade-value queries are returned exactly as computed
with no rounding, while profit and profit ratio are rounded to 8 decimal
places when computed and stored: the close trade value of scenario C is the
exact rational 38500009997023949227/38400000000000000000000, calc_profit
returns the 8-decimal 0.00006206 there, and the stored close_profit of
scenario A is round8 of the exact ratio. -/
theorem C4_amended_rounding :
    (∀ (t : Trade) (r hours : ℚ), t.is_short = some true → t.close_rate = some r →
      t.calc_close_trade_value hours =
        (t.amount + calculate_interest t.exchange (t.borrowed.getD 0)
          (t.interest_rate.getD 0) hours) * r * (1 + t.fee_close)) ∧
    (∀ (t : Trade) (hours : ℚ), t.is_short = some true →
      t.calc_profit hours =
        round8 (t.calc_open_trade_value - t.calc_close_trade_value hours)) ∧
    tradeC2.calc_close_trade_value 5 = 38500009997023949227 / 38400000000000000000000 ∧
    tradeC2.calc_profit 5 = (0.00006206 : ℚ) ∧
    tradeA2.close_profit =
      some (round8 (tradeA2.calc_open_trade_value /
        tradeA2.calc_close_trade_value (1/6) - 1)) := by
  refine ⟨?_, ?_, tradeC2_close_value, tradeC2_profit, ?_⟩
  · intro t r hours h hr
    simp [Trade.calc_close_trade_value, h, hr, close_value]
  · intro t hours h
    simp [Trade.calc_profit, h]
  · rw [tradeA2_open_value, tradeA2_close_value]
    rw [round8_eval _ 6198845 (by norm_num) (by norm_num)]
    rw [tradeA2_eq]
    norm_num [Option.some.injEq]

theorem C4_amended_rounding_witness :
    tradeC2.is_short = some true ∧ tradeC2.close_rate = some (0.00001099 : ℚ) ∧
    tradeC2.calc_close_trade_value 5 =
      (tradeC2.amount + calculate_interest tradeC2.exchange (tradeC2.borrowed.getD 0)
        (tradeC2.interest_rate.getD 0) 5) * (0.00001099 : ℚ) * (1 + tradeC2.fee_close) :=
  ⟨by simp [tradeC2_eq], by simp [tradeC2_eq],
    C4_amended_rounding.1 tradeC2 0.00001099 5 (by simp [tradeC2_eq])
      (by simp [tradeC2_eq])⟩

/-- C5: the valuation queries never fail for an unopened trade: a trade with
no recorded open fill has calc_open_trade_value and calc_close_trade_value
exactly 0, and a trade without closing data has calc_close_trade_value 0
(the queries are total functions of the trade, so they cannot raise). -/
theorem C5_unopened_zero (t : Trade) (hours : ℚ) :
    (t.is_short = none →
      t.calc_open_trade_value = 0 ∧ t.calc_close_trade_value hours = 0) ∧
    (t.close_rate = none → t.calc_close_trade_value hours = 0) := by
  constructor
  · intro h
    exact ⟨by simp [Trade.calc_open_trade_value, h],
      by simp [Trade.calc_close_trade_value, h]⟩
  · intro h
    rcases hs : t.is_short with _ | s
    · simp [Trade.calc_close_trade_value, hs]
    · simp [Trade.calc_close_trade_value, hs, h]

theorem C5_unopened_zero_witness :
    (tradeU.calc_open_trade_value = 0 ∧ tradeU.calc_close_trade_value 0 = 0) ∧
    tradeE1.calc_close_trade_value 0 = 0 :=
  ⟨(C5_unopened_zero tradeU 0).1 rfl, (C5_unopened_zero tradeE1 0).2 rfl⟩

/-- C6: update with an order whose status is not closed changes no state and
emits no log event: the trade is returned unchanged with an empty log. -/
theorem C6_non_closed_noop (t : Trade) (o : OrderRecord) (hours : ℚ) (now : String)
    (h : o.status ≠ "closed") : t.update o hours now = (t, []) := by
  simp only [Trade.update]
  rw [if_pos h]

theorem C6_non_closed_noop_witness :
    limit_short_order_open.status ≠ "closed" ∧
    tradeU.update limit_short_order_open 0 "n1" = (tradeU, []) :=
  ⟨by decide, C6_non_closed_noop tradeU limit_short_order_open 0 "n1" (by decide)⟩

/-- C7: the first closed fill determines the direction: is_short is derived
from the order side (sell-to-open means short), open_rate is taken from the
fill price, amount is the filled quantity scaled by the order's leverage, and
a short borrows the entire leveraged amount; concretely, filled 91.99181073
at leverage 3 gives amount 275.97543219 = borrowed. -/
theorem C7_opening_fill :
    (∀ (t : Trade) (o : OrderRecord) (hours : ℚ) (now : String),
      t.is_short = none → o.status = "closed" →
        (t.update o hours now).1.is_short = some (o.side == "sell") ∧
        (t.update o hours now).1.open_rate = o.price ∧
        (t.update o hours now).1.amount = o.filled * o.leverage ∧
        (o.side = "sell" →
          (t.update o hours now).1.borrowed = some (o.filled * o.leverage))) ∧
    tradeB1.is_short = some true ∧ tradeB1.amount = (275.97543219 : ℚ) ∧
    tradeB1.borrowed = some (275.97543219 : ℚ) ∧ tradeB1.leverage = 3 := by
  constructor
  · intro t o hours now h hs
    have hcond : ¬(o.status ≠ "closed") := by simp [hs]
    refine ⟨?_, ?_, ?_, ?_⟩
    · simp only [Trade.update, if_neg hcond, h]
    · simp only [Trade.update, if_neg hcond, h]
    · simp only [Trade.update, if_neg hcond, h]
    · intro hside
      simp only [Trade.update, if_neg hcond, h]
      simp [hside]
  · refine ⟨?_, ?_, ?_, ?_⟩ <;> rw [tradeB1_eq]

theorem C7_opening_fill_witness :
    tradeB0.is_short = none ∧ market_short_order.status = "closed" ∧
    (tradeB0.update market_short_order (1/6) "n1").1.is_short =
      some (market_short_order.side == "sell") :=
  ⟨rfl, rfl, (C7_opening_fill.1 tradeB0 market_short_order (1/6) "n1" rfl rfl).1⟩

/-- C8: the reconciler's fulfilment message as intended, evaluated in the
model at the limit fill of scenario A (whose exact format the test suite
asserts) and at the market fill of scenario B (the input whose exact-format
assertion the test suite disables with a TODO about stray spacing in the
logged text). -/
theorem C8_log_format :
    (tradeA0.update limit_short_order (1/6) "n1").2 =
      ["LIMIT_SELL has been fulfilled for Trade(id=2, pair=ETH/BTC, amount=90.99181073, open_rate=0.00001173, open_since=ten_minutes_ago)."] ∧
    (tradeB0.update market_short_order (1/6) "n1").2 =
      ["MARKET_SELL has been fulfilled for Trade(id=1, pair=ETH/BTC, amount=275.97543219, open_rate=0.00004173, open_since=ten_minutes_ago)."] :=
  ⟨msgA_eq, msgB_eq⟩

/-- C9: close(rate) sets close_rate to the given rate, computes the profit
ratio (for a short, via the ValuationEngine over the leveraged amount),
clears is_open, and writes close_date only when it is not already set, so a
second close never changes close_date: once CLOSED, the timestamp is final
and close_date is written at most once. -/
theorem C9_close_terminal (t : Trade) (rate hours : ℚ) (now : String) :
    (t.close rate hours now).close_rate = some rate ∧
    (t.close rate hours now).is_open = false ∧
    (t.is_short = some true →
      (t.close rate hours now).close_profit =
        some (round8 (open_value (t.amount * t.leverage) t.open_rate t.fee_open true /
          close_value (t.amount * t.leverage +
            calculate_interest t.exchange (t.amount * t.leverage)
              (t.interest_rate.getD 0) hours) rate t.fee_close true - 1))) ∧
    (t.close_date = none → (t.close rate hours now).close_date = some now) ∧
    (∀ d, t.close_date = some d → (t.close rate hours now).close_date = some d) := by
  refine ⟨rfl, rfl, ?_, ?_, ?_⟩
  · intro h
    simp [Trade.close, h]
  · intro h
    simp [Trade.close, h]
  · intro d h
    simp [Trade.close, h]

theorem C9_close_terminal_witness :
    tradeD0.close_date = none ∧
    (tradeD0.close 0.01 5 "t1").close_date = some "t1" ∧
    ((tradeD0.close 0.01 5 "t1").close 0.02 5 "t2").close_date = some "t1" :=
  ⟨rfl, (C9_close_terminal tradeD0 0.01 5 "t1").2.2.2.1 rfl,
    (C9_close_terminal (tradeD0.close 0.01 5 "t1") 0.02 5 "t2").2.2.2.2 ("t1") rfl⟩

/-- C10: manually closing the directly-constructed kraken short (stored
amount 5 at leverage 3) values the position over the leverage-scaled
quantity 15, borrows 15, charges 0.009375 interest over the 5-hour hold
(5/4 of the 4-hour period), and stores close profit ratio 0.98878195. -/
theorem C10_manual_close_leverage :
    tradeD0.amount * tradeD0.leverage = 15 ∧
    calculate_interest tradeD0.exchange (tradeD0.amount * tradeD0.leverage)
      (tradeD0.interest_rate.getD 0) 5 = 0.009375 ∧
    (tradeD0.close 0.01 5 "nD").close_profit = some (0.98878195 : ℚ) ∧
    (tradeD0.close 0.01 5 "nD").is_open = false := by
  refine ⟨by norm_num [tradeD0], ?_, ?_, ?_⟩
  · simp only [tradeD0, calculate_interest, Option.getD]
    simp only [if_neg (show ("kraken" : String) = "binance" -> False from by decide)]
    norm_num [max_def]
  · rw [tradeD_close_eq]
  · rw [tradeD_close_eq]

end LexiTrade
